import Mathlib

/-!
Verification of the desktop-pet motion/behavior core
(`src/behavior/motion_controller.py`, `src/behavior/behavior_modes.py`,
`src/behavior/routine_manager.py`, plus the animation-switch helpers of
`src/animation/animation_manager.py` and the scheduler bookkeeping of
`src/core/pet_core.py`).

Modelling conventions:
* Python floats are modelled as exact rationals (`ℚ`); `int(...)` truncation
  toward zero is `pyInt`.
* `float.__pow__(0.5)` (square root) is abstracted by a function parameter
  `sq : ℚ → ℚ`; `sqrtQ` is a concrete executable instance that is exact on
  perfect squares, used for concrete evaluations.
* Randomness is an explicit per-call oracle: each RNG call site of one tick
  reads its own oracle field.  `random.randint a b` applied to a raw draw `n`
  is `a + n % (b - a + 1)`, which ranges over exactly `[a, b]` when `a ≤ b`;
  `random.random()` and `random.uniform` draws are supplied directly.
* The tkinter scheduler is modelled by a fresh-handle counter: `root.after`
  appends a `(handle, delay)` pair to `pending` and returns the handle;
  `root.after_cancel` removes it.  `MotionController._schedule` additionally
  records the handle in `move_after_id`, mirroring the source.
* `AnimationManager.switch_to_move` re-enters `MotionController.tick()` at its
  end; the re-entrancy is modelled with a fuel parameter (the recursion depth
  of the source is at most 2, since the nested tick starts in `wander`).
* Host-only effects (window geometry, tray menu, bubble rendering, config
  file I/O) are modelled as ghost logs on the state where a claim needs them
  (`pending`, `config_writes`, `speech_log`) and omitted otherwise.
-/

namespace Ameath

/-- Python `int(q)` — truncation toward zero (`Int.div` is T-division). -/
def pyInt (q : ℚ) : ℤ :=
  Int.tdiv q.num (q.den : ℤ)

/-- Model of `random.randint a b` from a raw draw: lands in `[a, b]` when `a ≤ b`. -/
def randint (a b : ℤ) (draw : ℕ) : ℤ :=
  a + Int.emod (draw : ℤ) (b - a + 1)

/-- Fuel-driven integer square root search: the largest `k` reachable from
`acc` in at most `fuel` increments with `k * k ≤ n`. -/
def natSqrtGo (n : ℕ) : ℕ → ℕ → ℕ
  | 0, k => k
  | fuel + 1, k => if (k + 1) * (k + 1) ≤ n then natSqrtGo n fuel (k + 1) else k

/-- Kernel-computable integer square root (exact on perfect squares). -/
def natSqrt (n : ℕ) : ℕ :=
  natSqrtGo n n 0

/-- An executable square root on `ℚ`, exact on perfect squares of rationals;
used to instantiate the abstract `sq` parameter on concrete inputs. -/
def sqrtQ (q : ℚ) : ℚ :=
  (natSqrt q.num.toNat : ℚ) / (natSqrt q.den : ℚ)

/-! Constants from `src/constants.py` (motion/behavior section). -/

def SPEED_X : ℚ := 3
def SPEED_Y : ℚ := 2
def MOVE_INTERVAL : ℤ := 30
def JITTER_INTERVAL : ℤ := 5
def JITTER : ℚ := 15/100
def INERTIA_FACTOR : ℚ := 95/100
def INTENT_FACTOR : ℚ := 5/100
def STOP_CHANCE : ℚ := 3/10000
def STOP_DURATION_MIN : ℤ := 5000
def STOP_DURATION_MAX : ℤ := 5000
def RESPAWN_MARGIN : ℤ := 50
def TARGET_CHANGE_MIN : ℤ := 200
def TARGET_CHANGE_MAX : ℤ := 500
def OUTSIDE_TARGET_CHANCE : ℚ := 4/10
def FOLLOW_DISTANCE : ℤ := 80
def REST_CHANCE : ℚ := 6/10
def REST_DURATION_MIN : ℤ := 1000
def REST_DURATION_MAX : ℤ := 3000
def REST_DISTANCE : ℚ := 20
def FOLLOW_START_DIST : ℤ := 200
def FOLLOW_STOP_DIST : ℤ := 60
def SPEED_WANDER : ℚ := 8/10
def SPEED_FOLLOW : ℚ := 12/10
def SPEED_CURIOUS : ℚ := 5/10
def SLEEP_SPEED_MULTIPLIER : ℚ := 3/10
def REMINDER_CHANCE : ℚ := 3/10
def BEHAVIOR_MODE_QUIET : String := "quiet"
def BEHAVIOR_MODE_ACTIVE : String := "active"
def BEHAVIOR_MODE_CLINGY : String := "clingy"
def TIME_MORNING_START : ℤ := 6
def TIME_NOON_START : ℤ := 11
def TIME_AFTERNOON_START : ℤ := 14
def TIME_EVENING_START : ℤ := 18
def TIME_NIGHT_START : ℤ := 22
def TIME_SLEEP_START : ℤ := 0

/-- The four motion states (`MOTION_WANDER/FOLLOW/CURIOUS/REST`). -/
inductive MotionState where
  | wander
  | follow
  | curious
  | rest
deriving DecidableEq, Repr, Inhabited

/-- Which frame set is currently active (idle vs. left/right move frames). -/
inductive AnimSet where
  | idle
  | moveRight
  | moveLeft
deriving DecidableEq, Repr, Inhabited

/-- Ghost log entry for `update_config(...)` persistence calls. -/
inductive ConfigWrite where
  | behaviorMode (mode : String)
  | followMouse (value : Bool)
deriving DecidableEq, Repr

/-- `BehaviorParams` dataclass of `src/behavior/behavior_modes.py`. -/
structure BehaviorParams where
  follow_override : Option Bool
  stop_chance : Option ℚ
  rest_chance : Option ℚ
  target_min : Option ℤ
  target_max : Option ℤ
  speed_mul : ℚ
  min_move_ticks : ℤ
deriving DecidableEq, Repr

/-- `get_behavior_params` of `src/behavior/behavior_modes.py` (lines 30-63).
Pure lookup; the float multipliers of the source are the exact rationals
written here. -/
def get_behavior_params (mode : String) : BehaviorParams :=
  if mode = BEHAVIOR_MODE_QUIET then
    { follow_override := some false
      stop_chance := some (min (STOP_CHANCE * 2) (9/10))
      rest_chance := some (min (REST_CHANCE * (15/10)) (95/100))
      target_min := some (pyInt ((TARGET_CHANGE_MIN : ℚ) * (16/10)))
      target_max := some (pyInt ((TARGET_CHANGE_MAX : ℚ) * (16/10)))
      speed_mul := 7/10
      min_move_ticks := 0 }
  else if mode = BEHAVIOR_MODE_CLINGY then
    { follow_override := some true
      stop_chance := some (max (STOP_CHANCE * (3/10)) (1/10000))
      rest_chance := some (max (REST_CHANCE * (3/10)) (5/100))
      target_min := some (pyInt ((TARGET_CHANGE_MIN : ℚ) * (7/10)))
      target_max := some (pyInt ((TARGET_CHANGE_MAX : ℚ) * (7/10)))
      speed_mul := 11/10
      min_move_ticks := 10 }
  else
    { follow_override := none
      stop_chance := none
      rest_chance := some (8/100)
      target_min := none
      target_max := none
      speed_mul := 1
      min_move_ticks := 18 }

/-- Raw RNG draws consumed by `MotionController._get_random_target`. -/
structure TargetDraw where
  outside_roll : ℚ
  side : Fin 4
  coord1 : ℕ
  coord2 : ℕ
deriving DecidableEq, Repr, Inhabited

/-- One motion tick's worth of host inputs and RNG draws, one field per call
site of `MotionController.tick` (pointer read, the two `random.random`
rolls, the `randint` draws, the follow offsets and the jitter resample). -/
structure Oracle where
  pointer_x : ℤ
  pointer_y : ℤ
  stop_roll : ℚ
  stop_duration : ℕ
  rest_roll : ℚ
  rest_duration : ℕ
  target1 : TargetDraw
  target2 : TargetDraw
  timer1 : ℕ
  timer2 : ℕ
  follow_dx : ℕ
  follow_dy : ℕ
  jitter_x : ℚ
  jitter_y : ℚ
deriving DecidableEq, Repr, Inhabited

/-- The fields of the `DesktopPet` app object that the motion controller and
routine manager read and write (cf. `StateManager.init_state`), plus the
ghost scheduler/config/speech logs. -/
structure AppState where
  x : ℚ
  y : ℚ
  vx : ℚ
  vy : ℚ
  w : ℤ
  h : ℤ
  screen_w : ℤ
  screen_h : ℤ
  target_x : ℤ
  target_y : ℤ
  target_timer : ℤ
  rest_timer : ℤ
  motion_state : MotionState
  behavior_mode : String
  follow_mouse : Bool
  is_paused : Bool
  dragging : Bool
  music_playing : Bool
  is_moving : Bool
  moving_right : Bool
  idle_gifs_nonempty : Bool
  current_anim : AnimSet
  frame_index : ℤ
  move_tick : ℤ
  move_ticks_since_move : ℤ
  jitter_x : ℚ
  jitter_y : ℚ
  last_mouse : ℤ × ℤ
  last_pos : Option (ℤ × ℤ)
  speed_x : ℚ
  speed_y : ℚ
  behavior_follow_override : Option Bool
  behavior_stop_chance : Option ℚ
  behavior_rest_chance : Option ℚ
  behavior_target_min : Option ℤ
  behavior_target_max : Option ℤ
  behavior_speed_mul : ℚ
  behavior_min_move_ticks : ℤ
  move_after_id : Option ℕ
  routine_after_id : Option ℕ
  next_handle : ℕ
  pending : List (ℕ × ℤ)
  config_writes : List ConfigWrite
  current_time_period : String
  is_sleeping : Bool
  original_speed_x : ℚ
  original_speed_y : ℚ
  ai_chat_panel_visible : Bool
  last_reminder_time : List (String × ℚ)
  speech_log : List String

/-- `root.after(delay, ...)`: registers a fresh callback handle, returns it. -/
def after_call (delay : ℤ) (s : AppState) : ℕ × AppState :=
  (s.next_handle,
   { s with pending := s.pending ++ [(s.next_handle, delay)]
            next_handle := s.next_handle + 1 })

/-- `root.after_cancel(handle)`: removes a pending callback. -/
def after_cancel (handle : ℕ) (s : AppState) : AppState :=
  { s with pending := s.pending.filter (fun p => p.fst != handle) }

/-- `MotionController._schedule` (source lines 220-224): cancel the recorded
handle if any, then schedule and record the new one. -/
def schedule (delay : ℤ) (s : AppState) : AppState :=
  let s :=
    match s.move_after_id with
    | some hdl => { after_cancel hdl s with move_after_id := none }
    | none => s
  let hs := after_call delay s
  { hs.2 with move_after_id := some hs.1 }

/-- `AnimationManager.switch_to_idle`: stop moving and select idle frames
(the random choice among idle GIFs is abstracted to the `idle` frame set). -/
def switch_to_idle (s : AppState) : AppState :=
  if s.is_paused || s.music_playing then s
  else
    let s := { s with is_moving := false, move_ticks_since_move := 0 }
    if s.idle_gifs_nonempty then
      { s with current_anim := AnimSet.idle, frame_index := 0 }
    else s

/-- Guard and state updates of `AnimationManager.switch_to_move`, up to the
`app.motion.tick()` re-entry at its end: `none` when one of the guards
returned early (paused / music playing / quiet mode), otherwise the state in
which the nested tick runs (moving, move frames selected, recorded motion
handle cancelled). -/
def switch_to_move_pre (s : AppState) : Option AppState :=
  if s.is_paused || s.music_playing then none
  else if s.behavior_mode = BEHAVIOR_MODE_QUIET then none
  else
    let s := { s with is_moving := true
                      move_ticks_since_move := 0
                      current_anim := if s.moving_right then AnimSet.moveRight
                                      else AnimSet.moveLeft
                      frame_index := 0 }
    some (match s.move_after_id with
          | some hdl => { after_cancel hdl s with move_after_id := none }
          | none => s)

/-- `AnimationManager.switch_to_move`, parametrized by the tick function it
re-enters at its end (`app.motion.tick()` in the source). -/
def switch_to_move_with (tickF : AppState → AppState) (s : AppState) : AppState :=
  match switch_to_move_pre s with
  | none => s
  | some t => tickF t

/-- `MotionController._get_random_target` (source lines 226-246). -/
def get_random_target (t : TargetDraw) (s : AppState) : ℤ × ℤ :=
  if t.outside_roll < OUTSIDE_TARGET_CHANCE then
    let margin := RESPAWN_MARGIN + 50
    match t.side.val with
    | 0 => (-margin, randint 0 (s.screen_h - s.h) t.coord1)
    | 1 => (s.screen_w + margin, randint 0 (s.screen_h - s.h) t.coord1)
    | 2 => (randint 0 (s.screen_w - s.w) t.coord1, -margin)
    | _ => (randint 0 (s.screen_w - s.w) t.coord1, s.screen_h + margin)
  else
    (randint 0 (s.screen_w - s.w) t.coord1, randint 0 (s.screen_h - s.h) t.coord2)

/-- `MotionController._get_speed_multiplier` (source lines 248-255). -/
def get_speed_multiplier (s : AppState) : ℚ :=
  let base : ℚ :=
    match s.motion_state with
    | MotionState.wander => SPEED_WANDER
    | MotionState.follow => SPEED_FOLLOW
    | MotionState.curious => SPEED_CURIOUS
    | MotionState.rest => 1
  base * s.behavior_speed_mul

/-- Horizontal clamp-and-bounce of `_handle_edge` (source lines 268-275);
the boolean is the `hit_edge` contribution of this axis. -/
def clamp_x (s : AppState) : AppState × Bool :=
  if s.x ≤ 0 then
    ({ s with x := 0, vx := |s.vx| }, true)
  else if (s.screen_w : ℚ) ≤ s.x + (s.w : ℚ) then
    ({ s with x := ((s.screen_w - s.w : ℤ) : ℚ), vx := -|s.vx| }, true)
  else (s, false)

/-- Vertical clamp-and-bounce of `_handle_edge` (source lines 277-284). -/
def clamp_y (s : AppState) : AppState × Bool :=
  if s.y ≤ 0 then
    ({ s with y := 0, vy := |s.vy| }, true)
  else if (s.screen_h : ℚ) ≤ s.y + (s.h : ℚ) then
    ({ s with y := ((s.screen_h - s.h : ℤ) : ℚ), vy := -|s.vy| }, true)
  else (s, false)

/-- `MotionController._handle_edge` (source lines 257-298).  The off-screen
escape check of lines 259-265 takes no action in the source and is omitted. -/
def handle_edge (s : AppState) : AppState :=
  let px := clamp_x s
  let s := px.1
  let py := clamp_y s
  let s := py.1
  if px.2 || py.2 then
    if (1:ℚ)/2 < s.vx ∧ s.moving_right = false then
      { s with moving_right := true, current_anim := AnimSet.moveRight, frame_index := 0 }
    else if s.vx < -((1:ℚ)/2) ∧ s.moving_right = true then
      { s with moving_right := false, current_anim := AnimSet.moveLeft, frame_index := 0 }
    else s
  else s

/-- Effective follow flag of one tick (source lines 114-118): the behavior
override wins over the sprite's own flag, and `active` mode forces it off. -/
def effective_follow (s : AppState) : Bool :=
  if s.behavior_mode = BEHAVIOR_MODE_ACTIVE then false
  else s.behavior_follow_override.getD s.follow_mouse

/-- Wander target countdown (source lines 149-159). -/
def wander_countdown (o : Oracle) (s : AppState) : AppState :=
  if s.motion_state = MotionState.wander then
    let s := { s with target_timer := s.target_timer - 1 }
    if s.target_timer ≤ 0 then
      let tgt := get_random_target o.target2 s
      { s with target_x := tgt.1
               target_y := tgt.2
               target_timer := randint (s.behavior_target_min.getD TARGET_CHANGE_MIN)
                                       (s.behavior_target_max.getD TARGET_CHANGE_MAX)
                                       o.timer2 }
    else s
  else s

/-- Per-axis retarget offset (source lines 164-168): `FOLLOW_DISTANCE` when
following, `FOLLOW_STOP_DIST` when curious. -/
def retarget_offset (s : AppState) : ℤ :=
  if s.motion_state = MotionState.follow then FOLLOW_DISTANCE else FOLLOW_STOP_DIST

/-- Follow/Curious live retarget (source lines 163-173): target is the pointer
plus a per-axis `randint (-offset) offset`; the recomputed distance is floored
at 1.  Returns the new state and the new `(dx, dy, dist)`. -/
def live_retarget (sq : ℚ → ℚ) (o : Oracle) (s : AppState) : AppState × ℚ × ℚ × ℚ :=
  let offset := retarget_offset s
  let tx := o.pointer_x + randint (-offset) offset o.follow_dx
  let ty := o.pointer_y + randint (-offset) offset o.follow_dy
  let s := { s with target_x := tx, target_y := ty }
  let dx := (tx : ℚ) - s.x
  let dy := (ty : ℚ) - s.y
  (s, dx, dy, max 1 (sq (dx * dx + dy * dy)))

/-- Facing hysteresis of the tick body (source lines 180-192). -/
def update_facing (s : AppState) : AppState :=
  if s.is_moving && !s.music_playing then
    if (1:ℚ)/2 ≤ s.vx ∧ s.moving_right = false then
      { s with moving_right := true, current_anim := AnimSet.moveRight, frame_index := 0 }
    else if s.vx ≤ -((1:ℚ)/2) ∧ s.moving_right = true then
      { s with moving_right := false, current_anim := AnimSet.moveLeft, frame_index := 0 }
    else s
  else s

/-- Jitter resample every `JITTER_INTERVAL` ticks (source lines 194-197). -/
def update_jitter (o : Oracle) (s : AppState) : AppState :=
  let s := { s with move_tick := s.move_tick + 1 }
  if Int.emod s.move_tick JITTER_INTERVAL = 0 then
    { s with jitter_x := o.jitter_x, jitter_y := o.jitter_y }
  else s

/-- Tail of the tick body (source lines 199-218): add jitter to velocity,
integrate position, handle edges, update the last notified integer position,
bump the move-tick counter and reschedule through `_schedule`. -/
def finish_motion (s : AppState) : AppState :=
  let s := { s with vx := s.vx + s.jitter_x, vy := s.vy + s.jitter_y }
  let s := { s with x := s.x + s.vx, y := s.y + s.vy }
  let s := handle_edge s
  let ip := (pyInt s.x, pyInt s.y)
  let s := if s.last_pos ≠ some ip then { s with last_pos := some ip } else s
  let s := { s with move_ticks_since_move := s.move_ticks_since_move + 1 }
  schedule MOVE_INTERVAL s

/-- Arrival rest (source lines 138-145): enter `Rest`, switch to idle frames,
and reschedule through a bare `root.after` — note that unlike every other
path this does NOT record the new handle in `move_after_id`. -/
def arrival_rest (o : Oracle) (s : AppState) : AppState :=
  let s := { s with motion_state := MotionState.rest
                    rest_timer := randint REST_DURATION_MIN REST_DURATION_MAX o.rest_duration }
  let s := switch_to_idle s
  (after_call MOVE_INTERVAL s).2

/-- Tail of the tick body shared by all non-returning paths (source lines
149-218): wander target countdown, speed multiplier, Follow/Curious live
retarget, velocity blend, facing update, jitter, integration and reschedule.
`dx dy dist` are the line 109-112 values; the second result component is the
distance value used as the divisor of the desired-velocity computation
(source line 175). -/
def motion_cont (sq : ℚ → ℚ) (o : Oracle) (mouse_moved : Bool)
    (dx dy dist : ℚ) (s : AppState) : AppState × ℚ :=
  let s := wander_countdown o s
  let speed_mul := get_speed_multiplier s
  let sdd : AppState × ℚ × ℚ × ℚ :=
    if (s.motion_state = MotionState.follow ∨ s.motion_state = MotionState.curious) ∧
       mouse_moved = true
    then live_retarget sq o s
    else (s, dx, dy, dist)
  let s := sdd.1
  let dx := sdd.2.1
  let dy := sdd.2.2.1
  let dist := sdd.2.2.2
  let desired_vx := dx / dist * s.speed_x * speed_mul
  let desired_vy := dy / dist * s.speed_y * speed_mul
  let s := { s with vx := s.vx * INERTIA_FACTOR + desired_vx * INTENT_FACTOR
                    vy := s.vy * INERTIA_FACTOR + desired_vy * INTENT_FACTOR }
  (finish_motion (update_jitter o (update_facing s)), dist)

/-- Distance of the sprite to its current target (source lines 109-112):
`sqrt(dx²+dy²)` when the squared distance is positive, else the literal 1.
Note the guard is a ZERO check, not a floor at 1. -/
def main_dist (sq : ℚ → ℚ) (s : AppState) : ℚ :=
  let dx := (s.target_x : ℚ) - s.x
  let dy := (s.target_y : ℚ) - s.y
  let dist_sq := dx * dx + dy * dy
  if 0 < dist_sq then sq dist_sq else 1

/-- Fall back to `Wander` when follow is off but the state still tracks the
pointer (source lines 120-124). -/
def drop_follow (follow : Bool) (s : AppState) : AppState :=
  if follow = false ∧
     (s.motion_state = MotionState.follow ∨ s.motion_state = MotionState.curious)
  then { s with motion_state := MotionState.wander } else s

/-- Arrival handling in `Wander` (source lines 134-147): within
`REST_DISTANCE` of the target, either roll into an arrival rest (early
return through a bare `root.after`) or pick a fresh random target. -/
def wander_arrival (sq : ℚ → ℚ) (o : Oracle) (mouse_moved : Bool)
    (dx dy dist : ℚ) (s : AppState) : AppState × ℚ :=
  if o.rest_roll < s.behavior_rest_chance.getD REST_CHANCE then
    (arrival_rest o s, dist)
  else
    let tgt := get_random_target o.target1 s
    motion_cont sq o mouse_moved dx dy dist
      { s with target_x := tgt.1
               target_y := tgt.2
               target_timer := randint TARGET_CHANGE_MIN TARGET_CHANGE_MAX o.timer1 }

/-- The non-suppressed, non-rest part of `MotionController.tick` (source lines
104-218), from pointer sampling to the final reschedule.  The second component
is the distance value used as the divisor of the desired-velocity computation
(source line 175); on the early-returning arrival-rest path no division
happens and the line-112 value is reported. -/
def motion_phase (sq : ℚ → ℚ) (o : Oracle) (s : AppState) : AppState × ℚ :=
  let mouse_moved : Bool := decide ((o.pointer_x, o.pointer_y) ≠ s.last_mouse)
  let s := { s with last_mouse := (o.pointer_x, o.pointer_y) }
  let dx := (s.target_x : ℚ) - s.x
  let dy := (s.target_y : ℚ) - s.y
  let dist := main_dist sq s
  let follow := effective_follow s
  let s := drop_follow follow s
  if follow = true then
    let dmsq := ((o.pointer_x : ℚ) - s.x)^2 + ((o.pointer_y : ℚ) - s.y)^2
    motion_cont sq o mouse_moved dx dy dist
      { s with motion_state :=
                 if ((FOLLOW_START_DIST : ℤ) : ℚ)^2 < dmsq then MotionState.follow
                 else if dmsq < ((FOLLOW_STOP_DIST : ℤ) : ℚ)^2 then MotionState.curious
                 else MotionState.wander }
  else if s.motion_state = MotionState.wander ∧ dist < REST_DISTANCE then
    wander_arrival sq o mouse_moved dx dy dist s
  else motion_cont sq o mouse_moved dx dy dist s

/-- `MotionController.tick` (source lines 61-218).  `fuel` bounds the
re-entrancy depth of `switch_to_move` (which calls `tick` again at its end);
the source recursion never exceeds depth 2 because the nested tick starts in
`wander`.  Each invocation consumes the head of the oracle list. -/
def tick (sq : ℚ → ℚ) : ℕ → List Oracle → AppState → AppState
  | 0, _, s => s
  | fuel + 1, os, s =>
    let o := os.headI
    let s := { s with move_after_id := none }
    if s.music_playing then
      schedule (if MOVE_INTERVAL < 100 then MOVE_INTERVAL else 100) s
    else if s.is_paused || s.dragging then
      schedule (if s.is_paused then 100 else 50) s
    else if s.behavior_mode = BEHAVIOR_MODE_QUIET then
      schedule MOVE_INTERVAL (if s.is_moving then switch_to_idle s else s)
    else if s.motion_state = MotionState.wander ∧ s.is_moving = true ∧
            s.behavior_min_move_ticks ≤ s.move_ticks_since_move ∧
            o.stop_roll < s.behavior_stop_chance.getD STOP_CHANCE then
      let s := { s with motion_state := MotionState.rest
                        rest_timer := randint STOP_DURATION_MIN STOP_DURATION_MAX
                                              o.stop_duration }
      schedule MOVE_INTERVAL (switch_to_idle s)
    else if s.motion_state = MotionState.rest then
      let s := { s with rest_timer := s.rest_timer - MOVE_INTERVAL }
      let s :=
        if s.rest_timer ≤ 0 then
          let tgt := get_random_target o.target1 s
          let s := { s with motion_state := MotionState.wander
                            target_x := tgt.1
                            target_y := tgt.2
                            target_timer := randint TARGET_CHANGE_MIN TARGET_CHANGE_MAX
                                                    o.timer1 }
          match switch_to_move_pre s with
          | none => s
          | some t => tick sq fuel os.tail t
        else s
      schedule MOVE_INTERVAL s
    else
      (motion_phase sq o s).1

/-- `DesktopPet.set_follow_mouse`: sets the flag and persists it. -/
def set_follow_mouse (enable : Bool) (s : AppState) : AppState :=
  { s with follow_mouse := enable
           config_writes := s.config_writes ++ [ConfigWrite.followMouse enable] }

/-- `MotionController.apply_behavior_mode` (source lines 300-330).  The tray
menu rebuild of lines 326-330 is host UI and not modelled. -/
def apply_behavior_mode (sq : ℚ → ℚ) (fuel : ℕ) (os : List Oracle)
    (mode : String) (s : AppState) : AppState :=
  let s := { s with behavior_mode := mode }
  let params := get_behavior_params mode
  let s := { s with behavior_follow_override := params.follow_override
                    behavior_stop_chance := params.stop_chance
                    behavior_rest_chance := params.rest_chance
                    behavior_target_min := params.target_min
                    behavior_target_max := params.target_max
                    behavior_speed_mul := params.speed_mul
                    behavior_min_move_ticks := params.min_move_ticks }
  let s :=
    match params.follow_override with
    | some b => set_follow_mouse b s
    | none => s
  if mode = BEHAVIOR_MODE_QUIET then
    switch_to_idle { s with motion_state := MotionState.rest }
  else if !s.is_paused && !s.dragging && !s.music_playing then
    switch_to_move_with (tick sq fuel os) { s with motion_state := MotionState.wander }
  else s

/-- `MotionController.set_behavior_mode` (source lines 332-341): unknown mode
strings are a complete no-op; known modes are applied and persisted. -/
def set_behavior_mode (sq : ℚ → ℚ) (fuel : ℕ) (os : List Oracle)
    (mode : String) (s : AppState) : AppState :=
  if ¬ (mode = BEHAVIOR_MODE_QUIET ∨ mode = BEHAVIOR_MODE_ACTIVE ∨
        mode = BEHAVIOR_MODE_CLINGY) then s
  else
    let s := apply_behavior_mode sq fuel os mode s
    { s with config_writes := s.config_writes ++ [ConfigWrite.behaviorMode mode] }

/-- `RoutineManager.get_time_period` (routine_manager.py lines 33-55). -/
def get_time_period (hour : ℤ) : String :=
  if TIME_SLEEP_START ≤ hour ∧ hour < TIME_MORNING_START then "sleep"
  else if TIME_MORNING_START ≤ hour ∧ hour < TIME_NOON_START then "morning"
  else if TIME_NOON_START ≤ hour ∧ hour < TIME_AFTERNOON_START then "noon"
  else if TIME_AFTERNOON_START ≤ hour ∧ hour < TIME_EVENING_START then "afternoon"
  else if TIME_EVENING_START ≤ hour ∧ hour < TIME_NIGHT_START then "evening"
  else "night"

/-- The reminder table of `src/constants.py` (`REMINDERS`): category and
cooldown interval in minutes; the message lists are abstracted to the
category tag recorded in the speech log. -/
def REMINDERS : List (String × ℤ) := [("water", 60), ("rest", 90), ("posture", 120)]

/-- Host inputs and RNG draws of one `RoutineManager.tick` invocation. -/
structure RoutineOracle where
  hour : ℤ
  now_min : ℚ
  reminder_roll : ℚ
  kind_roll : ℚ
deriving DecidableEq, Repr, Inhabited

/-- Replace (or insert) one reminder category's last-fire time. -/
def set_assoc (k : String) (v : ℚ) (l : List (String × ℚ)) : List (String × ℚ) :=
  (k, v) :: l.filter (fun p => p.fst != k)

/-- Time-period transition handling of `RoutineManager.tick` (routine_manager
lines 60-81): entering `sleep` truncates the speeds to `int(original * 0.3)`
and greets; leaving sleep (only when the sleeping flag is set) restores the
originals exactly and greets. -/
def routine_period_update (current_period : String) (s : AppState) : AppState :=
  if current_period ≠ s.current_time_period then
    let s := { s with current_time_period := current_period }
    if current_period = "sleep" then
      { s with is_sleeping := true
               speed_x := ((pyInt (s.original_speed_x * SLEEP_SPEED_MULTIPLIER) : ℤ) : ℚ)
               speed_y := ((pyInt (s.original_speed_y * SLEEP_SPEED_MULTIPLIER) : ℤ) : ℚ)
               speech_log := s.speech_log ++ ["greeting_night"] }
    else if s.is_sleeping then
      { s with is_sleeping := false
               speed_x := s.original_speed_x
               speed_y := s.original_speed_y
               speech_log := s.speech_log ++ ["greeting_morning"] }
    else s
  else s

/-- Reminder / random-chat stage of `RoutineManager.tick` (routine_manager
lines 85-111): only when awake, unpaused and with the chat panel hidden, the
first off-cooldown reminder of the table fires, or a random chat message. -/
def routine_reminder (ro : RoutineOracle) (s : AppState) : AppState :=
  if s.is_sleeping = false ∧ s.is_paused = false ∧ s.ai_chat_panel_visible = false ∧
     ro.reminder_roll < REMINDER_CHANCE then
    if ro.kind_roll < 6/10 then
      match REMINDERS.find? (fun rc =>
        match s.last_reminder_time.lookup rc.fst with
        | none => true
        | some t => decide ((rc.snd : ℚ) ≤ ro.now_min - t)) with
      | some rc =>
        { s with speech_log := s.speech_log ++ [rc.fst]
                 last_reminder_time := set_assoc rc.fst ro.now_min s.last_reminder_time }
      | none => s
    else
      { s with speech_log := s.speech_log ++ ["random_chat"] }
  else s

/-- `RoutineManager.tick` (routine_manager.py lines 57-113): clear the
recorded routine handle, handle the time-period transition, run the reminder
stage, then reschedule after 60 s and record the handle. -/
def routine_tick (ro : RoutineOracle) (s : AppState) : AppState :=
  let s := { s with routine_after_id := none }
  let s := routine_period_update (get_time_period ro.hour) s
  let s := routine_reminder ro s
  let hs := after_call 60000 s
  { hs.2 with routine_after_id := some hs.1 }

/-! Concrete states and oracles used by witnesses and counterexamples. -/

/-- A benign concrete app state: active mode, wandering, not suppressed,
sprite 100×100 at (100, 100) on a 1920×1080 screen. -/
def base_state : AppState where
  x := 100
  y := 100
  vx := 0
  vy := 0
  w := 100
  h := 100
  screen_w := 1920
  screen_h := 1080
  target_x := 100
  target_y := 100
  target_timer := 50
  rest_timer := 0
  motion_state := MotionState.wander
  behavior_mode := BEHAVIOR_MODE_ACTIVE
  follow_mouse := false
  is_paused := false
  dragging := false
  music_playing := false
  is_moving := false
  moving_right := true
  idle_gifs_nonempty := true
  current_anim := AnimSet.moveRight
  frame_index := 0
  move_tick := 0
  move_ticks_since_move := 0
  jitter_x := 0
  jitter_y := 0
  last_mouse := (0, 0)
  last_pos := none
  speed_x := 3
  speed_y := 2
  behavior_follow_override := none
  behavior_stop_chance := none
  behavior_rest_chance := none
  behavior_target_min := none
  behavior_target_max := none
  behavior_speed_mul := 1
  behavior_min_move_ticks := 18
  move_after_id := none
  routine_after_id := none
  next_handle := 0
  pending := []
  config_writes := []
  current_time_period := "morning"
  is_sleeping := false
  original_speed_x := 3
  original_speed_y := 2
  ai_chat_panel_visible := false
  last_reminder_time := []
  speech_log := []

/-- A benign oracle: pointer at the origin, all probability rolls fail,
target draws land inside the screen at (100, 100). -/
def base_oracle : Oracle where
  pointer_x := 0
  pointer_y := 0
  stop_roll := 1
  stop_duration := 0
  rest_roll := 1
  rest_duration := 0
  target1 := { outside_roll := 1, side := 0, coord1 := 100, coord2 := 100 }
  target2 := { outside_roll := 1, side := 0, coord1 := 100, coord2 := 100 }
  timer1 := 0
  timer2 := 0
  follow_dx := 0
  follow_dy := 0
  jitter_x := 0
  jitter_y := 0

/-- Size sanity of the host-supplied bounds: positive sprite that fits the
screen (`0 < w ≤ screenW`, `0 < h ≤ screenH`). -/
def sizes_ok (s : AppState) : Prop :=
  0 < s.w ∧ s.w ≤ s.screen_w ∧ 0 < s.h ∧ s.h ≤ s.screen_h

/-- The spec's bounding invariant: `0 ≤ x ≤ screenW - w ∧ 0 ≤ y ≤ screenH - h`. -/
def in_bounds (s : AppState) : Prop :=
  0 ≤ s.x ∧ s.x ≤ ((s.screen_w - s.w : ℤ) : ℚ) ∧
  0 ≤ s.y ∧ s.y ≤ ((s.screen_h - s.h : ℤ) : ℚ)

/-- Quiet-mode variant of the base state, mid-move. -/
def quiet_state : AppState :=
  { base_state with behavior_mode := BEHAVIOR_MODE_QUIET, is_moving := true }

/-- Clingy-like state with the follow override forced on, used for the
follow-entry scenario: sprite at (100, 100), wandering. -/
def c2_state : AppState :=
  { base_state with behavior_mode := BEHAVIOR_MODE_CLINGY
                    behavior_follow_override := some true
                    behavior_min_move_ticks := 10 }

/-- Oracle with the pointer at (800, 800) and all probability rolls failing. -/
def c2_oracle : Oracle :=
  { base_oracle with pointer_x := 800, pointer_y := 800 }

/-- State whose subpixel offset to its own target gives `dist_sq = 1/4`. -/
def c3_state : AppState :=
  { base_state with x := 201/2 }

/-- Following sprite at (500, 500) whose pointer just moved to the origin. -/
def c5_state : AppState :=
  { base_state with behavior_mode := BEHAVIOR_MODE_CLINGY
                    behavior_follow_override := some true
                    motion_state := MotionState.follow
                    x := 500
                    y := 500
                    last_mouse := (1, 1) }

/-- Oracle with the pointer at the origin and offset draws of 0 (so the
retarget offset lands at its lower end, -offset). -/
def c5_oracle : Oracle :=
  { base_oracle with pointer_x := 0, pointer_y := 0 }

/-- Resting sprite whose rest timer expires on the next tick, with the follow
override on and the pointer far away: the re-entered tick goes to Follow. -/
def c7_state : AppState :=
  { base_state with motion_state := MotionState.rest
                    rest_timer := 30
                    behavior_mode := BEHAVIOR_MODE_CLINGY
                    behavior_follow_override := some true
                    behavior_min_move_ticks := 10
                    is_moving := true
                    last_mouse := (5000, 5000) }

/-- Oracles for the rest-expiry tick and the nested re-entered tick. -/
def c7_oracles : List Oracle :=
  [base_oracle, { base_oracle with pointer_x := 5000, pointer_y := 5000 }]

/-- Resting sprite with 100 ms left on the rest timer. -/
def c7w_state : AppState :=
  { base_state with motion_state := MotionState.rest, rest_timer := 100 }

/-- Resting sprite with an expiring timer and follow off. -/
def c7w2_state : AppState :=
  { base_state with motion_state := MotionState.rest, rest_timer := 10 }

/-- Oracle whose arrival rest roll succeeds. -/
def c10_oracle : Oracle :=
  { base_oracle with rest_roll := 0 }

/-- Routine oracle at 2 am (sleep period) with failing reminder rolls. -/
def c4_oracle : RoutineOracle :=
  { hour := 2, now_min := 0, reminder_roll := 1, kind_roll := 1 }

/-- Routine oracle at 8 am (morning period) with failing reminder rolls. -/
def c4_oracle_morning : RoutineOracle :=
  { hour := 8, now_min := 0, reminder_roll := 1, kind_roll := 1 }

/-- Sleeping state (entered sleep with truncated speeds) at period `sleep`. -/
def c4_sleeping_state : AppState :=
  { base_state with current_time_period := "sleep"
                    is_sleeping := true
                    speed_x := 0
                    speed_y := 0 }

instance (s : AppState) : Decidable (sizes_ok s) := by
  unfold sizes_ok; infer_instance

instance (s : AppState) : Decidable (in_bounds s) := by
  unfold in_bounds; infer_instance

/-! ### Theorems -/

theorem schedule_eq (d : ℤ) (s : AppState) :
    schedule d s =
      { s with pending := (match s.move_after_id with
                           | some hdl => s.pending.filter (fun p => p.fst != hdl)
                           | none => s.pending) ++ [(s.next_handle, d)]
               move_after_id := some s.next_handle
               next_handle := s.next_handle + 1 } := by
  cases h : s.move_after_id <;> simp [schedule, after_call, after_cancel, h]

theorem switch_to_idle_eq (s : AppState) :
    switch_to_idle s =
      if s.is_paused || s.music_playing then s
      else if s.idle_gifs_nonempty then
        { s with is_moving := false, move_ticks_since_move := 0
                 current_anim := AnimSet.idle, frame_index := 0 }
      else { s with is_moving := false, move_ticks_since_move := 0 } := by
  unfold switch_to_idle
  dsimp only

theorem randint_mem (a b : ℤ) (draw : ℕ) (hab : a ≤ b) :
    a ≤ randint a b draw ∧ randint a b draw ≤ b := by
  unfold randint
  have hpos : (0:ℤ) < b - a + 1 := by omega
  have h1 : 0 ≤ Int.emod (draw : ℤ) (b - a + 1) := Int.emod_nonneg _ (by omega)
  have h2 : Int.emod (draw : ℤ) (b - a + 1) < b - a + 1 := Int.emod_lt_of_pos _ hpos
  omega

theorem clamp_x_fields (s : AppState) :
    (clamp_x s).1.y = s.y ∧ (clamp_x s).1.vy = s.vy ∧ (clamp_x s).1.w = s.w ∧
    (clamp_x s).1.h = s.h ∧ (clamp_x s).1.screen_w = s.screen_w ∧
    (clamp_x s).1.screen_h = s.screen_h := by
  unfold clamp_x
  split_ifs <;> simp

theorem clamp_y_fields (s : AppState) :
    (clamp_y s).1.x = s.x ∧ (clamp_y s).1.vx = s.vx ∧ (clamp_y s).1.w = s.w ∧
    (clamp_y s).1.h = s.h ∧ (clamp_y s).1.screen_w = s.screen_w ∧
    (clamp_y s).1.screen_h = s.screen_h := by
  unfold clamp_y
  split_ifs <;> simp

theorem clamp_x_bounds (s : AppState) (hw : 0 < s.w) (hws : s.w ≤ s.screen_w) :
    0 ≤ (clamp_x s).1.x ∧ (clamp_x s).1.x ≤ ((s.screen_w - s.w : ℤ) : ℚ) := by
  have hws' : (s.w : ℚ) ≤ (s.screen_w : ℚ) := by exact_mod_cast hws
  unfold clamp_x
  split_ifs with h1 h2 <;> dsimp only <;> push_cast <;> constructor <;> linarith

theorem clamp_y_bounds (s : AppState) (hh : 0 < s.h) (hhs : s.h ≤ s.screen_h) :
    0 ≤ (clamp_y s).1.y ∧ (clamp_y s).1.y ≤ ((s.screen_h - s.h : ℤ) : ℚ) := by
  have hhs' : (s.h : ℚ) ≤ (s.screen_h : ℚ) := by exact_mod_cast hhs
  unfold clamp_y
  split_ifs with h1 h2 <;> dsimp only <;> push_cast <;> constructor <;> linarith

theorem handle_edge_in_bounds (s : AppState) (hs : sizes_ok s) :
    in_bounds (handle_edge s) := by
  obtain ⟨hw, hws, hh, hhs⟩ := hs
  obtain ⟨hxb1, hxb2⟩ := clamp_x_bounds s hw hws
  obtain ⟨cf1, cf2, cf3, cf4, cf5, cf6⟩ := clamp_x_fields s
  obtain ⟨hyb1, hyb2⟩ := clamp_y_bounds (clamp_x s).1 (cf4 ▸ hh) (by rw [cf4, cf6]; exact hhs)
  obtain ⟨df1, df2, df3, df4, df5, df6⟩ := clamp_y_fields (clamp_x s).1
  unfold handle_edge
  dsimp only
  rw [cf4, cf6] at hyb2
  split_ifs <;>
    (simp only [in_bounds, df1, df3, df4, df5, df6, cf3, cf4, cf5, cf6];
     exact ⟨hxb1, hxb2, hyb1, hyb2⟩)

theorem sizes_ok_update_facing (s : AppState) :
    sizes_ok (update_facing s) ↔ sizes_ok s := by
  unfold update_facing
  split_ifs <;> exact Iff.rfl

theorem sizes_ok_update_jitter (o : Oracle) (s : AppState) :
    sizes_ok (update_jitter o s) ↔ sizes_ok s := by
  unfold update_jitter
  dsimp only
  split_ifs <;> exact Iff.rfl

theorem sizes_ok_wander_countdown (o : Oracle) (s : AppState) :
    sizes_ok (wander_countdown o s) ↔ sizes_ok s := by
  unfold wander_countdown
  dsimp only
  split_ifs <;> exact Iff.rfl

theorem sizes_ok_live_retarget (sq : ℚ → ℚ) (o : Oracle) (s : AppState) :
    sizes_ok (live_retarget sq o s).1 ↔ sizes_ok s := by
  unfold live_retarget
  exact Iff.rfl

theorem arrival_rest_in_bounds (o : Oracle) (t : AppState) :
    in_bounds (arrival_rest o t) ↔ in_bounds t := by
  unfold arrival_rest after_call
  dsimp only
  rw [switch_to_idle_eq]
  split_ifs <;> exact Iff.rfl

theorem finish_motion_in_bounds (s : AppState) (hs : sizes_ok s) :
    in_bounds (finish_motion s) := by
  unfold finish_motion
  dsimp only
  have hb := handle_edge_in_bounds
    { s with vx := s.vx + s.jitter_x, vy := s.vy + s.jitter_y
             x := s.x + (s.vx + s.jitter_x), y := s.y + (s.vy + s.jitter_y) } hs
  simp only [schedule_eq]
  unfold in_bounds at hb ⊢
  dsimp only
  split <;> exact hb

theorem motion_cont_in_bounds (sq : ℚ → ℚ) (o : Oracle) (mm : Bool)
    (dx dy dist : ℚ) (s : AppState) (hs : sizes_ok s) :
    in_bounds (motion_cont sq o mm dx dy dist s).1 := by
  unfold motion_cont
  dsimp only
  split
  · apply finish_motion_in_bounds
    rw [sizes_ok_update_jitter, sizes_ok_update_facing]
    exact (sizes_ok_live_retarget sq o _).2 ((sizes_ok_wander_countdown o s).2 hs)
  · apply finish_motion_in_bounds
    rw [sizes_ok_update_jitter, sizes_ok_update_facing]
    exact (sizes_ok_wander_countdown o s).2 hs

theorem sizes_ok_drop_follow (f : Bool) (s : AppState) :
    sizes_ok (drop_follow f s) ↔ sizes_ok s := by
  unfold drop_follow
  split_ifs <;> exact Iff.rfl

theorem in_bounds_drop_follow (f : Bool) (s : AppState) :
    in_bounds (drop_follow f s) ↔ in_bounds s := by
  unfold drop_follow
  split_ifs <;> exact Iff.rfl

theorem wander_arrival_in_bounds (sq : ℚ → ℚ) (o : Oracle) (mm : Bool)
    (dx dy dist : ℚ) (s : AppState) (hs : sizes_ok s) (hb : in_bounds s) :
    in_bounds (wander_arrival sq o mm dx dy dist s).1 := by
  unfold wander_arrival
  dsimp only
  split
  · exact (arrival_rest_in_bounds _ _).2 hb
  · exact motion_cont_in_bounds sq o _ _ _ _ _ hs

theorem motion_phase_in_bounds (sq : ℚ → ℚ) (o : Oracle) (s : AppState)
    (hs : sizes_ok s) (hb : in_bounds s) : in_bounds (motion_phase sq o s).1 := by
  have hs' : sizes_ok (drop_follow (effective_follow
      { s with last_mouse := (o.pointer_x, o.pointer_y) })
      { s with last_mouse := (o.pointer_x, o.pointer_y) }) :=
    (sizes_ok_drop_follow _ _).2 hs
  have hb' : in_bounds (drop_follow (effective_follow
      { s with last_mouse := (o.pointer_x, o.pointer_y) })
      { s with last_mouse := (o.pointer_x, o.pointer_y) }) :=
    (in_bounds_drop_follow _ _).2 hb
  unfold motion_phase
  dsimp only
  split
  · exact motion_cont_in_bounds sq o _ _ _ _ _ hs'
  · split
    · exact wander_arrival_in_bounds sq o _ _ _ _ _ hs' hb'
    · exact motion_cont_in_bounds sq o _ _ _ _ _ hs'

theorem sizes_ok_schedule (d : ℤ) (s : AppState) :
    sizes_ok (schedule d s) ↔ sizes_ok s := by
  rw [schedule_eq]; exact Iff.rfl

theorem in_bounds_schedule (d : ℤ) (s : AppState) :
    in_bounds (schedule d s) ↔ in_bounds s := by
  rw [schedule_eq]; exact Iff.rfl

theorem sizes_ok_switch_to_idle (s : AppState) :
    sizes_ok (switch_to_idle s) ↔ sizes_ok s := by
  rw [switch_to_idle_eq]; split_ifs <;> exact Iff.rfl

theorem in_bounds_switch_to_idle (s : AppState) :
    in_bounds (switch_to_idle s) ↔ in_bounds s := by
  rw [switch_to_idle_eq]; split_ifs <;> exact Iff.rfl

theorem sizes_ok_arrival_rest (o : Oracle) (s : AppState) :
    sizes_ok (arrival_rest o s) ↔ sizes_ok s := by
  unfold arrival_rest after_call
  dsimp only
  rw [switch_to_idle_eq]
  split_ifs <;> exact Iff.rfl

theorem handle_edge_sizes (s : AppState) :
    (handle_edge s).w = s.w ∧ (handle_edge s).h = s.h ∧
    (handle_edge s).screen_w = s.screen_w ∧ (handle_edge s).screen_h = s.screen_h := by
  obtain ⟨cf1, cf2, cf3, cf4, cf5, cf6⟩ := clamp_x_fields s
  obtain ⟨df1, df2, df3, df4, df5, df6⟩ := clamp_y_fields (clamp_x s).1
  unfold handle_edge
  dsimp only
  split_ifs <;> simp_all

theorem sizes_ok_finish_motion (s : AppState) :
    sizes_ok (finish_motion s) ↔ sizes_ok s := by
  unfold finish_motion
  dsimp only
  obtain ⟨e1, e2, e3, e4⟩ := handle_edge_sizes
    { s with vx := s.vx + s.jitter_x, vy := s.vy + s.jitter_y
             x := s.x + (s.vx + s.jitter_x), y := s.y + (s.vy + s.jitter_y) }
  rw [schedule_eq]
  unfold sizes_ok
  split <;> simp [e1, e2, e3, e4]

theorem sizes_ok_motion_cont (sq : ℚ → ℚ) (o : Oracle) (mm : Bool)
    (dx dy dist : ℚ) (s : AppState) :
    sizes_ok (motion_cont sq o mm dx dy dist s).1 ↔ sizes_ok s := by
  unfold motion_cont
  dsimp only
  split
  · rw [sizes_ok_finish_motion, sizes_ok_update_jitter, sizes_ok_update_facing]
    exact (sizes_ok_live_retarget sq o _).trans (sizes_ok_wander_countdown o s)
  · rw [sizes_ok_finish_motion, sizes_ok_update_jitter, sizes_ok_update_facing]
    exact sizes_ok_wander_countdown o s

theorem sizes_ok_wander_arrival (sq : ℚ → ℚ) (o : Oracle) (mm : Bool)
    (dx dy dist : ℚ) (s : AppState) :
    sizes_ok (wander_arrival sq o mm dx dy dist s).1 ↔ sizes_ok s := by
  unfold wander_arrival
  dsimp only
  split
  · exact sizes_ok_arrival_rest o s
  · exact sizes_ok_motion_cont sq o _ _ _ _ _

theorem sizes_ok_motion_phase (sq : ℚ → ℚ) (o : Oracle) (s : AppState) :
    sizes_ok (motion_phase sq o s).1 ↔ sizes_ok s := by
  unfold motion_phase
  dsimp only
  have hdf : sizes_ok (drop_follow (effective_follow
      { s with last_mouse := (o.pointer_x, o.pointer_y) })
      { s with last_mouse := (o.pointer_x, o.pointer_y) }) ↔ sizes_ok s :=
    sizes_ok_drop_follow _ _
  split
  · exact (sizes_ok_motion_cont sq o _ _ _ _ _).trans hdf
  · split
    · exact (sizes_ok_wander_arrival sq o _ _ _ _ _).trans hdf
    · exact (sizes_ok_motion_cont sq o _ _ _ _ _).trans hdf

theorem switch_to_move_pre_fields (s t : AppState) (h : switch_to_move_pre s = some t) :
    t.w = s.w ∧ t.h = s.h ∧ t.screen_w = s.screen_w ∧ t.screen_h = s.screen_h ∧
    t.x = s.x ∧ t.y = s.y ∧ t.motion_state = s.motion_state ∧
    t.behavior_mode = s.behavior_mode ∧
    t.behavior_follow_override = s.behavior_follow_override ∧
    t.follow_mouse = s.follow_mouse := by
  unfold switch_to_move_pre at h
  split_ifs at h <;>
    first
      | exact Option.noConfusion h
      | (dsimp only at h;
         cases hm : s.move_after_id <;> rw [hm] at h <;>
           (dsimp only at h; injection h with h; subst h; simp [after_cancel]))

theorem tick_sizes_ok (sq : ℚ → ℚ) :
    ∀ (fuel : ℕ) (os : List Oracle) (s : AppState),
      sizes_ok s → sizes_ok (tick sq fuel os s)
  | 0, _, s, hs => hs
  | fuel + 1, os, s, hs => by
    simp only [tick]
    split_ifs
    · exact (sizes_ok_schedule _ _).2 (by exact hs)
    · exact (sizes_ok_schedule _ _).2 (by exact hs)
    · exact (sizes_ok_schedule _ _).2 (by exact hs)
    · exact (sizes_ok_schedule _ _).2 (by exact hs)
    · exact (sizes_ok_schedule _ _).2 ((sizes_ok_switch_to_idle _).2 (by exact hs))
    · exact (sizes_ok_schedule _ _).2 (by exact hs)
    · exact (sizes_ok_schedule _ _).2 ((sizes_ok_switch_to_idle _).2 (by exact hs))
    · rw [sizes_ok_schedule]
      split
      · exact hs
      · next t hpre =>
          obtain ⟨e1, e2, e3, e4, _⟩ := switch_to_move_pre_fields _ t hpre
          have hst : sizes_ok t := by
            unfold sizes_ok
            rw [e1, e2, e3, e4]
            exact hs
          exact tick_sizes_ok sq fuel os.tail t hst
    · exact (sizes_ok_schedule _ _).2 (by exact hs)
    · exact (sizes_ok_motion_phase sq _ _).2 (by exact hs)

theorem tick_in_bounds (sq : ℚ → ℚ) :
    ∀ (fuel : ℕ) (os : List Oracle) (s : AppState),
      sizes_ok s → in_bounds s → in_bounds (tick sq fuel os s)
  | 0, _, s, _, hb => hb
  | fuel + 1, os, s, hs, hb => by
    simp only [tick]
    split_ifs
    · exact (in_bounds_schedule _ _).2 (by exact hb)
    · exact (in_bounds_schedule _ _).2 (by exact hb)
    · exact (in_bounds_schedule _ _).2 (by exact hb)
    · exact (in_bounds_schedule _ _).2 (by exact hb)
    · exact (in_bounds_schedule _ _).2 ((in_bounds_switch_to_idle _).2 (by exact hb))
    · exact (in_bounds_schedule _ _).2 (by exact hb)
    · exact (in_bounds_schedule _ _).2 ((in_bounds_switch_to_idle _).2 (by exact hb))
    · rw [in_bounds_schedule]
      split
      · exact hb
      · next t hpre =>
          obtain ⟨e1, e2, e3, e4, e5, e6, _⟩ := switch_to_move_pre_fields _ t hpre
          have hst : sizes_ok t := by
            unfold sizes_ok
            rw [e1, e2, e3, e4]
            exact hs
          have hbt : in_bounds t := by
            unfold in_bounds
            rw [e1, e3, e5, e6, e2, e4]
            exact hb
          exact tick_in_bounds sq fuel os.tail t hst hbt
    · exact (in_bounds_schedule _ _).2 (by exact hb)
    · exact motion_phase_in_bounds sq _ _ (by exact hs) (by exact hb)

theorem ticks_in_bounds (sq : ℚ → ℚ) (l : List (ℕ × List Oracle)) :
    ∀ s : AppState, sizes_ok s → in_bounds s →
      in_bounds (List.foldl (fun t p => tick sq p.1 p.2 t) s l) := by
  induction l with
  | nil => intro s _ hb; simpa using hb
  | cons p l ih =>
    intro s hs hb
    simp only [List.foldl_cons]
    exact ih _ (tick_sizes_ok sq p.1 p.2 s hs) (tick_in_bounds sq p.1 p.2 s hs hb)

/-- C1: with `0 < w ≤ screenW` and `0 < h ≤ screenH`, the position after
`_handle_edge` always satisfies `0 ≤ x ≤ screenW - w` and `0 ≤ y ≤ screenH - h`
— for any input position — and the bounding invariant holds after every tick
that integrates position and is preserved across every sequence of ticks
(each list entry supplying one tick's fuel and oracle stream). -/
theorem c1_bounding_invariant (sq : ℚ → ℚ) (s : AppState) (hs : sizes_ok s) :
    in_bounds (handle_edge s) ∧
    ∀ l : List (ℕ × List Oracle), in_bounds s →
      in_bounds (List.foldl (fun t p => tick sq p.1 p.2 t) s l) :=
  ⟨handle_edge_in_bounds s hs, fun l hb => ticks_in_bounds sq l s hs hb⟩

unseal Rat.add Rat.mul Rat.sub Rat.inv in
theorem c1_bounding_invariant_witness :
    sizes_ok base_state ∧ in_bounds base_state ∧
    in_bounds (handle_edge base_state) ∧
    in_bounds (List.foldl (fun t p => tick sqrtQ p.1 p.2 t) base_state
      [(1, [base_oracle]), (1, [base_oracle])]) :=
  ⟨by decide, by decide,
   (c1_bounding_invariant sqrtQ base_state (by decide)).1,
   (c1_bounding_invariant sqrtQ base_state (by decide)).2
     [(1, [base_oracle]), (1, [base_oracle])] (by decide)⟩

/-- C6: the behavior-mode table is a pure Lean function; its Quiet speed
multiplier is exactly 0.7, Clingy forces the follow flag on, and Active
leaves it unforced (`None`). -/
theorem c6_mode_table_determinism :
    (get_behavior_params BEHAVIOR_MODE_QUIET).speed_mul = 7/10 ∧
    (get_behavior_params BEHAVIOR_MODE_CLINGY).follow_override = some true ∧
    (get_behavior_params BEHAVIOR_MODE_ACTIVE).follow_override = none := by
  refine ⟨?_, ?_, ?_⟩ <;> rfl

/-- C8: for every mode string outside `{quiet, active, clingy}`,
`set_behavior_mode` is a complete no-op: it returns the state unchanged —
in particular the behavior mode, follow flag, motion state, behavior
parameters and the config-write log are all untouched, and nothing is
persisted. -/
theorem c8_invalid_mode_noop (sq : ℚ → ℚ) (fuel : ℕ) (os : List Oracle)
    (mode : String) (s : AppState)
    (h : mode ≠ BEHAVIOR_MODE_QUIET ∧ mode ≠ BEHAVIOR_MODE_ACTIVE ∧
         mode ≠ BEHAVIOR_MODE_CLINGY) :
    set_behavior_mode sq fuel os mode s = s := by
  unfold set_behavior_mode
  have hc : ¬ (mode = BEHAVIOR_MODE_QUIET ∨ mode = BEHAVIOR_MODE_ACTIVE ∨
               mode = BEHAVIOR_MODE_CLINGY) := by
    rintro (h1 | h2 | h3)
    exacts [h.1 h1, h.2.1 h2, h.2.2 h3]
  rw [if_pos hc]

theorem c8_invalid_mode_noop_witness :
    set_behavior_mode sqrtQ 1 [base_oracle] "bogus" base_state = base_state :=
  c8_invalid_mode_noop sqrtQ 1 [base_oracle] "bogus" base_state
    ⟨by decide, by decide, by decide⟩

/-- C9: in Quiet behavior mode one call to `tick` performs no motion update:
position, velocity, target and both timers are unchanged (on every execution
path), and — when the tick is not suppressed by music/pause/drag — its only
effects are leaving the idle flag cleared (switching to the idle frames when
currently moving) and rescheduling, with the handle recorded. -/
theorem c9_quiet_no_motion (sq : ℚ → ℚ) (fuel : ℕ) (os : List Oracle)
    (s : AppState) (hq : s.behavior_mode = BEHAVIOR_MODE_QUIET) :
    ((tick sq (fuel + 1) os s).x = s.x ∧ (tick sq (fuel + 1) os s).y = s.y ∧
     (tick sq (fuel + 1) os s).vx = s.vx ∧ (tick sq (fuel + 1) os s).vy = s.vy ∧
     (tick sq (fuel + 1) os s).target_x = s.target_x ∧
     (tick sq (fuel + 1) os s).target_y = s.target_y ∧
     (tick sq (fuel + 1) os s).target_timer = s.target_timer ∧
     (tick sq (fuel + 1) os s).rest_timer = s.rest_timer) ∧
    (s.music_playing = false → s.is_paused = false → s.dragging = false →
       (tick sq (fuel + 1) os s).is_moving = false ∧
       (s.is_moving = true → s.idle_gifs_nonempty = true →
          (tick sq (fuel + 1) os s).current_anim = AnimSet.idle) ∧
       (s.is_moving = false →
          (tick sq (fuel + 1) os s).current_anim = s.current_anim) ∧
       ((tick sq (fuel + 1) os s).move_after_id).isSome = true) := by
  simp only [tick, hq, schedule_eq, switch_to_idle_eq]
  split_ifs <;> simp_all

theorem wander_countdown_motion_state (o : Oracle) (s : AppState) :
    (wander_countdown o s).motion_state = s.motion_state := by
  unfold wander_countdown
  dsimp only
  split_ifs <;> rfl

theorem live_retarget_motion_state (sq : ℚ → ℚ) (o : Oracle) (s : AppState) :
    (live_retarget sq o s).1.motion_state = s.motion_state := rfl

theorem update_facing_motion_state (s : AppState) :
    (update_facing s).motion_state = s.motion_state := by
  unfold update_facing
  split_ifs <;> rfl

theorem update_jitter_motion_state (o : Oracle) (s : AppState) :
    (update_jitter o s).motion_state = s.motion_state := by
  unfold update_jitter
  dsimp only
  split_ifs <;> rfl

theorem clamp_x_misc (s : AppState) :
    (clamp_x s).1.motion_state = s.motion_state ∧
    (clamp_x s).1.rest_timer = s.rest_timer ∧
    (clamp_x s).1.target_x = s.target_x ∧
    (clamp_x s).1.target_y = s.target_y ∧
    (clamp_x s).1.target_timer = s.target_timer ∧
    (clamp_x s).1.move_after_id = s.move_after_id ∧
    (clamp_x s).1.pending = s.pending ∧
    (clamp_x s).1.next_handle = s.next_handle := by
  unfold clamp_x
  split_ifs <;> exact ⟨rfl, rfl, rfl, rfl, rfl, rfl, rfl, rfl⟩

theorem clamp_y_misc (s : AppState) :
    (clamp_y s).1.motion_state = s.motion_state ∧
    (clamp_y s).1.rest_timer = s.rest_timer ∧
    (clamp_y s).1.target_x = s.target_x ∧
    (clamp_y s).1.target_y = s.target_y ∧
    (clamp_y s).1.target_timer = s.target_timer ∧
    (clamp_y s).1.move_after_id = s.move_after_id ∧
    (clamp_y s).1.pending = s.pending ∧
    (clamp_y s).1.next_handle = s.next_handle := by
  unfold clamp_y
  split_ifs <;> exact ⟨rfl, rfl, rfl, rfl, rfl, rfl, rfl, rfl⟩

theorem handle_edge_misc (s : AppState) :
    (handle_edge s).motion_state = s.motion_state ∧
    (handle_edge s).rest_timer = s.rest_timer ∧
    (handle_edge s).target_x = s.target_x ∧
    (handle_edge s).target_y = s.target_y ∧
    (handle_edge s).target_timer = s.target_timer ∧
    (handle_edge s).move_after_id = s.move_after_id ∧
    (handle_edge s).pending = s.pending ∧
    (handle_edge s).next_handle = s.next_handle := by
  obtain ⟨a1, a2, a3, a4, a5, a6, a7, a8⟩ := clamp_x_misc s
  obtain ⟨b1, b2, b3, b4, b5, b6, b7, b8⟩ := clamp_y_misc (clamp_x s).1
  unfold handle_edge
  dsimp only
  split_ifs <;>
    exact ⟨b1.trans a1, b2.trans a2, b3.trans a3, b4.trans a4,
           b5.trans a5, b6.trans a6, b7.trans a7, b8.trans a8⟩

theorem finish_motion_motion_state (s : AppState) :
    (finish_motion s).motion_state = s.motion_state := by
  unfold finish_motion
  dsimp only
  rw [schedule_eq]
  dsimp only
  split <;> simp [handle_edge_misc]

theorem motion_cont_motion_state (sq : ℚ → ℚ) (o : Oracle) (mm : Bool)
    (dx dy dist : ℚ) (s : AppState) :
    (motion_cont sq o mm dx dy dist s).1.motion_state = s.motion_state := by
  unfold motion_cont
  dsimp only
  split
  · rw [finish_motion_motion_state, update_jitter_motion_state,
        update_facing_motion_state]
    exact (live_retarget_motion_state sq o _).trans (wander_countdown_motion_state o s)
  · rw [finish_motion_motion_state, update_jitter_motion_state,
        update_facing_motion_state]
    exact wander_countdown_motion_state o s

theorem drop_follow_x (f : Bool) (s : AppState) :
    (drop_follow f s).x = s.x ∧ (drop_follow f s).y = s.y := by
  unfold drop_follow
  split_ifs <;> exact ⟨rfl, rfl⟩

/-- C2: with the effective follow flag on and the squared pointer-to-sprite
distance strictly greater than `FOLLOW_START_DIST² = 200²`, one non-suppressed
`tick` (not in Rest, random stop not firing) sets the motion state to
`Follow`. -/
theorem c2_follow_entry (sq : ℚ → ℚ) (fuel : ℕ) (os : List Oracle) (s : AppState)
    (hm : s.music_playing = false) (hp : s.is_paused = false)
    (hd : s.dragging = false)
    (hq : s.behavior_mode ≠ BEHAVIOR_MODE_QUIET)
    (hr : s.motion_state ≠ MotionState.rest)
    (hstop : ¬ (s.motion_state = MotionState.wander ∧ s.is_moving = true ∧
                s.behavior_min_move_ticks ≤ s.move_ticks_since_move ∧
                (os.headI).stop_roll < s.behavior_stop_chance.getD STOP_CHANCE))
    (hf : effective_follow s = true)
    (hfar : ((FOLLOW_START_DIST : ℤ) : ℚ)^2 <
            (((os.headI).pointer_x : ℚ) - s.x)^2 +
            (((os.headI).pointer_y : ℚ) - s.y)^2) :
    (tick sq (fuel + 1) os s).motion_state = MotionState.follow := by
  simp only [tick]
  rw [if_neg (by simpa using hm), if_neg (by simp [hp, hd]),
      if_neg (by simpa using hq), if_neg (by simpa using hstop),
      if_neg (by simpa using hr)]
  unfold motion_phase
  dsimp only
  split
  · rw [motion_cont_motion_state]
    dsimp only
    rw [(drop_follow_x _ _).1, (drop_follow_x _ _).2]
    split
    · rfl
    · next h => exact absurd hfar h
  · next h => exact absurd hf h

unseal Rat.add Rat.mul Rat.sub Rat.inv in
theorem c2_follow_entry_witness :
    (tick sqrtQ 1 [c2_oracle] c2_state).motion_state = MotionState.follow :=
  c2_follow_entry sqrtQ 0 [c2_oracle] c2_state rfl rfl rfl (by decide)
    (by decide) (by decide) rfl (by decide)

theorem c9_quiet_no_motion_witness :
    (tick sqrtQ 1 [base_oracle] quiet_state).x = quiet_state.x ∧
    (tick sqrtQ 1 [base_oracle] quiet_state).vx = quiet_state.vx ∧
    (tick sqrtQ 1 [base_oracle] quiet_state).is_moving = false ∧
    (tick sqrtQ 1 [base_oracle] quiet_state).current_anim = AnimSet.idle := by
  have h := c9_quiet_no_motion sqrtQ 0 [base_oracle] quiet_state rfl
  exact ⟨h.1.1, h.1.2.2.1, (h.2 rfl rfl rfl).1, (h.2 rfl rfl rfl).2.1 rfl rfl⟩

theorem natSqrtGo_le (n : ℕ) : ∀ (fuel k : ℕ), k ≤ natSqrtGo n fuel k
  | 0, k => le_refl k
  | fuel + 1, k => by
    unfold natSqrtGo
    split
    · exact le_trans (Nat.le_succ k) (natSqrtGo_le n fuel (k + 1))
    · exact le_refl k

theorem natSqrt_pos (n : ℕ) (hn : 0 < n) : 0 < natSqrt n := by
  unfold natSqrt
  cases n with
  | zero => exact absurd hn (by decide)
  | succ m =>
    unfold natSqrtGo
    rw [if_pos (by omega)]
    exact lt_of_lt_of_le one_pos (natSqrtGo_le _ m 1)

theorem sqrtQ_pos (q : ℚ) (hq : 0 < q) : 0 < sqrtQ q := by
  unfold sqrtQ
  apply div_pos
  · have h1 : 0 < q.num := Rat.num_pos.mpr hq
    have h2 := natSqrt_pos q.num.toNat (by omega)
    exact_mod_cast h2
  · have h2 := natSqrt_pos q.den q.pos
    exact_mod_cast h2

unseal Rat.add Rat.mul Rat.sub Rat.inv in
/-- C3 counterexample: the main distance computation of `tick` (source lines
109-112, `main_dist`, reported as the second component of `motion_phase`) is
guarded only by a zero check — at sprite x = 100.5 with target x = 100 the
squared distance is 1/4 and the divisor used for the desired velocity is 1/2,
strictly below the claimed floor of 1. -/
theorem c3_divisor_counterexample :
    (motion_phase sqrtQ base_oracle c3_state).2 = 1/2 ∧
    ¬ (1 ≤ (motion_phase sqrtQ base_oracle c3_state).2) := by
  decide

theorem main_dist_pos (sq : ℚ → ℚ) (s : AppState)
    (hsq : ∀ q : ℚ, 0 < q → 0 < sq q) : 0 < main_dist sq s := by
  unfold main_dist
  dsimp only
  split
  · next h => exact hsq _ h
  · exact one_pos

theorem motion_cont_snd_pos (sq : ℚ → ℚ) (o : Oracle) (mm : Bool)
    (dx dy dist : ℚ) (s : AppState) (hd : 0 < dist) :
    0 < (motion_cont sq o mm dx dy dist s).2 := by
  unfold motion_cont
  dsimp only
  split
  · unfold live_retarget
    dsimp only
    exact lt_of_lt_of_le one_pos (le_max_left _ _)
  · exact hd

/-- C3 (amended): the desired-velocity divisor is always strictly positive —
the zero-distance case substitutes the literal 1 and the live-retarget
recomputation is floored at 1 by `max` — but the main site (source line 112)
only checks for zero, so divisors in (0, 1) do occur (see the
counterexample). -/
theorem c3_divisor_positive (sq : ℚ → ℚ) (o : Oracle) (s : AppState)
    (hsq : ∀ q : ℚ, 0 < q → 0 < sq q) :
    0 < (motion_phase sq o s).2 := by
  unfold motion_phase
  dsimp only
  split
  · exact motion_cont_snd_pos sq o _ _ _ _ _ (main_dist_pos sq _ hsq)
  · split
    · unfold wander_arrival
      dsimp only
      split
      · exact main_dist_pos sq _ hsq
      · exact motion_cont_snd_pos sq o _ _ _ _ _ (main_dist_pos sq _ hsq)
    · exact motion_cont_snd_pos sq o _ _ _ _ _ (main_dist_pos sq _ hsq)

theorem c3_divisor_positive_witness :
    0 < (motion_phase sqrtQ base_oracle base_state).2 :=
  c3_divisor_positive sqrtQ base_oracle base_state sqrtQ_pos

set_option maxRecDepth 8000 in
unseal Rat.add Rat.mul Rat.sub Rat.inv in
/-- C5 counterexample: the Follow/Curious live retarget does NOT clamp the
produced target into screen bounds — with the pointer at the origin and an
offset draw of -80 the target x becomes -80 < 0. -/
theorem c5_no_clamp_counterexample :
    (motion_phase sqrtQ c5_oracle c5_state).1.target_x = -80 ∧
    ¬ (0 ≤ (motion_phase sqrtQ c5_oracle c5_state).1.target_x) := by
  decide

/-- C5 (amended): the live retarget target equals the pointer plus a per-axis
offset within `[-offset, offset]` (80 for Follow, 60 for Curious); no clamping
into screen bounds is applied, so the target may lie outside the screen. -/
theorem c5_retarget_range (sq : ℚ → ℚ) (o : Oracle) (s : AppState) :
    o.pointer_x - retarget_offset s ≤ (live_retarget sq o s).1.target_x ∧
    (live_retarget sq o s).1.target_x ≤ o.pointer_x + retarget_offset s ∧
    o.pointer_y - retarget_offset s ≤ (live_retarget sq o s).1.target_y ∧
    (live_retarget sq o s).1.target_y ≤ o.pointer_y + retarget_offset s := by
  have ho : -(retarget_offset s) ≤ retarget_offset s := by
    unfold retarget_offset
    split_ifs <;> decide
  obtain ⟨h1, h2⟩ := randint_mem (-(retarget_offset s)) (retarget_offset s) o.follow_dx ho
  obtain ⟨h3, h4⟩ := randint_mem (-(retarget_offset s)) (retarget_offset s) o.follow_dy ho
  unfold live_retarget
  dsimp only
  refine ⟨by omega, by omega, by omega, by omega⟩

unseal Rat.add Rat.mul Rat.sub Rat.inv in
/-- C10: the arrival-rest path of `tick` (source lines 138-145) schedules the
next tick through a bare `root.after` and never stores the handle, so after
such a tick `move_after_id` is `none` while a new callback is pending —
the quit-time `_cancel_pending_afters` cannot cancel it. -/
theorem c10_arrival_rest_unrecorded :
    (tick sqrtQ 1 [c10_oracle] base_state).motion_state = MotionState.rest ∧
    (tick sqrtQ 1 [c10_oracle] base_state).move_after_id = none ∧
    (tick sqrtQ 1 [c10_oracle] base_state).pending = [(0, MOVE_INTERVAL)] := by
  decide

theorem routine_reminder_speeds (ro : RoutineOracle) (s : AppState) :
    (routine_reminder ro s).speed_x = s.speed_x ∧
    (routine_reminder ro s).speed_y = s.speed_y ∧
    (routine_reminder ro s).is_sleeping = s.is_sleeping := by
  unfold routine_reminder
  split_ifs <;>
    first
      | exact ⟨rfl, rfl, rfl⟩
      | (split <;> exact ⟨rfl, rfl, rfl⟩)

theorem routine_tick_speeds (ro : RoutineOracle) (s : AppState) :
    (routine_tick ro s).speed_x =
      (routine_period_update (get_time_period ro.hour)
        { s with routine_after_id := none }).speed_x ∧
    (routine_tick ro s).speed_y =
      (routine_period_update (get_time_period ro.hour)
        { s with routine_after_id := none }).speed_y ∧
    (routine_tick ro s).is_sleeping =
      (routine_period_update (get_time_period ro.hour)
        { s with routine_after_id := none }).is_sleeping := by
  unfold routine_tick after_call
  dsimp only
  exact routine_reminder_speeds ro _

theorem routine_period_update_enter (current : String) (s : AppState)
    (h1 : current = "sleep") (h2 : current ≠ s.current_time_period) :
    (routine_period_update current s).speed_x =
      ((pyInt (s.original_speed_x * SLEEP_SPEED_MULTIPLIER) : ℤ) : ℚ) ∧
    (routine_period_update current s).speed_y =
      ((pyInt (s.original_speed_y * SLEEP_SPEED_MULTIPLIER) : ℤ) : ℚ) ∧
    (routine_period_update current s).is_sleeping = true := by
  unfold routine_period_update
  dsimp only
  rw [if_pos h2, if_pos h1]
  exact ⟨rfl, rfl, rfl⟩

theorem routine_period_update_exit (current : String) (s : AppState)
    (h1 : current ≠ "sleep") (h2 : current ≠ s.current_time_period)
    (h3 : s.is_sleeping = true) :
    (routine_period_update current s).speed_x = s.original_speed_x ∧
    (routine_period_update current s).speed_y = s.original_speed_y ∧
    (routine_period_update current s).is_sleeping = false := by
  unfold routine_period_update
  dsimp only
  rw [if_pos h2, if_neg h1, if_pos h3]
  exact ⟨rfl, rfl, rfl⟩

unseal Rat.add Rat.mul Rat.sub Rat.inv in
/-- C4 counterexample: a routine tick at 2 am enters the sleep period with
the default original speeds 3 and 2; the code truncates
`int(3 * 0.3) = 0` and `int(2 * 0.3) = 0`, so the effective speeds become
0 and 0 — not the exact products 0.9 and 0.6 the spec claims. -/
theorem c4_sleep_speed_counterexample :
    (routine_tick c4_oracle base_state).is_sleeping = true ∧
    (routine_tick c4_oracle base_state).speed_x = 0 ∧
    (routine_tick c4_oracle base_state).speed_y = 0 ∧
    ¬ ((routine_tick c4_oracle base_state).speed_x = 9/10 ∧
       (routine_tick c4_oracle base_state).speed_y = 6/10) := by
  decide

/-- C4 (amended): on the routine tick that transitions into the sleep
period the speeds become `int(original * 0.3)` — the product truncated to
an integer, not the exact product — and on the tick that transitions out
of sleep the original speed constants are restored exactly. -/
theorem c4_sleep_speed_amended (ro : RoutineOracle) (s : AppState) :
    (get_time_period ro.hour = "sleep" →
       get_time_period ro.hour ≠ s.current_time_period →
       (routine_tick ro s).speed_x =
         ((pyInt (s.original_speed_x * SLEEP_SPEED_MULTIPLIER) : ℤ) : ℚ) ∧
       (routine_tick ro s).speed_y =
         ((pyInt (s.original_speed_y * SLEEP_SPEED_MULTIPLIER) : ℤ) : ℚ) ∧
       (routine_tick ro s).is_sleeping = true) ∧
    (get_time_period ro.hour ≠ "sleep" →
       get_time_period ro.hour ≠ s.current_time_period →
       s.is_sleeping = true →
       (routine_tick ro s).speed_x = s.original_speed_x ∧
       (routine_tick ro s).speed_y = s.original_speed_y ∧
       (routine_tick ro s).is_sleeping = false) := by
  obtain ⟨t1, t2, t3⟩ := routine_tick_speeds ro s
  constructor
  · intro h1 h2
    obtain ⟨e1, e2, e3⟩ := routine_period_update_enter (get_time_period ro.hour)
      { s with routine_after_id := none } h1 h2
    exact ⟨t1.trans e1, t2.trans e2, t3.trans e3⟩
  · intro h1 h2 h3
    obtain ⟨e1, e2, e3⟩ := routine_period_update_exit (get_time_period ro.hour)
      { s with routine_after_id := none } h1 h2 h3
    exact ⟨t1.trans e1, t2.trans e2, t3.trans e3⟩

unseal Rat.add Rat.mul Rat.sub Rat.inv in
theorem c4_sleep_speed_amended_witness :
    (routine_tick c4_oracle base_state).speed_x = 0 ∧
    (routine_tick c4_oracle base_state).is_sleeping = true ∧
    (routine_tick c4_oracle_morning c4_sleeping_state).speed_x = 3 ∧
    (routine_tick c4_oracle_morning c4_sleeping_state).speed_y = 2 ∧
    (routine_tick c4_oracle_morning c4_sleeping_state).is_sleeping = false := by
  have h1 := (c4_sleep_speed_amended c4_oracle base_state).1 (by decide) (by decide)
  have h2 := (c4_sleep_speed_amended c4_oracle_morning c4_sleeping_state).2
    (by decide) (by decide) rfl
  refine ⟨?_, h1.2.2, ?_, ?_, h2.2.2⟩
  · rw [h1.1]; decide
  · rw [h2.1]; rfl
  · rw [h2.2.1]; rfl

theorem schedule_misc (d : ℤ) (s : AppState) :
    (schedule d s).motion_state = s.motion_state ∧
    (schedule d s).rest_timer = s.rest_timer ∧
    (schedule d s).x = s.x ∧ (schedule d s).y = s.y := by
  rw [schedule_eq]
  exact ⟨rfl, rfl, rfl, rfl⟩

theorem switch_to_idle_motion_state (s : AppState) :
    (switch_to_idle s).motion_state = s.motion_state := by
  rw [switch_to_idle_eq]
  split_ifs <;> rfl

theorem drop_follow_wander (f : Bool) (s : AppState)
    (hw : s.motion_state = MotionState.wander) :
    (drop_follow f s).motion_state = MotionState.wander := by
  unfold drop_follow
  split_ifs <;> first | rfl | exact hw

theorem arrival_rest_motion_state (o : Oracle) (s : AppState) :
    (arrival_rest o s).motion_state = MotionState.rest := by
  unfold arrival_rest
  dsimp only
  exact (switch_to_idle_motion_state _).trans rfl

theorem motion_phase_wander_no_follow (sq : ℚ → ℚ) (o : Oracle) (t : AppState)
    (hw : t.motion_state = MotionState.wander)
    (hf : effective_follow t = false) :
    (motion_phase sq o t).1.motion_state = MotionState.wander ∨
    (motion_phase sq o t).1.motion_state = MotionState.rest := by
  have hdw : (drop_follow
      (effective_follow { t with last_mouse := (o.pointer_x, o.pointer_y) })
      { t with last_mouse := (o.pointer_x, o.pointer_y) }).motion_state =
      MotionState.wander :=
    drop_follow_wander _ _ (by exact hw)
  unfold motion_phase
  dsimp only
  split
  · next h =>
      have h' : effective_follow t = true := h
      rw [hf] at h'
      exact Bool.noConfusion h'
  · split
    · unfold wander_arrival
      dsimp only
      split
      · exact Or.inr (arrival_rest_motion_state o _)
      · left
        rw [motion_cont_motion_state]
        exact hdw
    · left
      rw [motion_cont_motion_state]
      exact hdw

theorem tick_wander_no_follow (sq : ℚ → ℚ) :
    ∀ (fuel : ℕ) (os : List Oracle) (t : AppState),
      t.motion_state = MotionState.wander →
      effective_follow t = false →
      (tick sq fuel os t).motion_state = MotionState.wander ∨
      (tick sq fuel os t).motion_state = MotionState.rest
  | 0, _, t, hw, _ => Or.inl hw
  | fuel + 1, os, t, hw, hf => by
    simp only [tick]
    split_ifs
    · exact Or.inl ((schedule_misc _ _).1.trans (by exact hw))
    · exact Or.inl ((schedule_misc _ _).1.trans (by exact hw))
    · exact Or.inl ((schedule_misc _ _).1.trans (by exact hw))
    · exact Or.inl ((schedule_misc _ _).1.trans (by exact hw))
    · exact Or.inl ((schedule_misc _ _).1.trans
        ((switch_to_idle_motion_state _).trans (by exact hw)))
    · exact Or.inl ((schedule_misc _ _).1.trans (by exact hw))
    · exact Or.inr ((schedule_misc _ _).1.trans
        ((switch_to_idle_motion_state _).trans rfl))
    · rename_i hrest _
      exact absurd (show t.motion_state = MotionState.rest from hrest) (by simp [hw])
    · rename_i hrest _
      exact absurd (show t.motion_state = MotionState.rest from hrest) (by simp [hw])
    · exact motion_phase_wander_no_follow sq os.headI _ (by exact hw) (by exact hf)

unseal Rat.add Rat.mul Rat.sub Rat.inv in
/-- C7 counterexample: a resting sprite whose rest timer expires on this tick,
with the follow override on and the pointer far away, transitions straight to
`Follow` within the same `tick()` call: the rest-expiry branch calls
`switch_to_move`, which re-enters `tick`, and the re-entered tick resolves the
follow flag immediately — the state never surfaces as `Wander`. -/
theorem c7_rest_to_follow_counterexample :
    c7_state.motion_state = MotionState.rest ∧
    (tick sqrtQ 2 c7_oracles c7_state).motion_state = MotionState.follow := by
  decide

/-- C7 (amended): while resting and not suppressed, a tick with
`MOVE_INTERVAL < rest_timer` decreases `rest_timer` by exactly
`MOVE_INTERVAL`, stays in `Rest` and moves nothing; when the timer crosses
zero AND the effective follow flag is off, the state after the tick is
`Wander` (or `Rest` again, via the nested tick's stop roll) — but with the
follow flag on it can leave `Rest` directly to `Follow` (see the
counterexample), because the expiry branch re-enters `tick` through
`switch_to_move`. -/
theorem c7_rest_countdown (sq : ℚ → ℚ) (fuel : ℕ) (os : List Oracle) (s : AppState)
    (hm : s.music_playing = false) (hp : s.is_paused = false)
    (hd : s.dragging = false)
    (hq : s.behavior_mode ≠ BEHAVIOR_MODE_QUIET)
    (hr : s.motion_state = MotionState.rest) :
    (MOVE_INTERVAL < s.rest_timer →
       (tick sq (fuel + 1) os s).rest_timer = s.rest_timer - MOVE_INTERVAL ∧
       (tick sq (fuel + 1) os s).motion_state = MotionState.rest ∧
       (tick sq (fuel + 1) os s).x = s.x ∧
       (tick sq (fuel + 1) os s).y = s.y) ∧
    (s.rest_timer ≤ MOVE_INTERVAL → effective_follow s = false →
       (tick sq (fuel + 1) os s).motion_state = MotionState.wander ∨
       (tick sq (fuel + 1) os s).motion_state = MotionState.rest) := by
  simp only [tick]
  rw [if_neg (by simpa using hm), if_neg (by simp [hp, hd]),
      if_neg (by simpa using hq), if_neg (by simp [hr]),
      if_pos (by simpa using hr)]
  constructor
  · intro h
    split_ifs with ht
    · exact absurd (show s.rest_timer - MOVE_INTERVAL ≤ 0 from ht)
        (by simp only [MOVE_INTERVAL] at h ⊢; omega)
    · exact ⟨(schedule_misc _ _).2.1, (schedule_misc _ _).1.trans (by exact hr),
             (schedule_misc _ _).2.2.1, (schedule_misc _ _).2.2.2⟩
  · intro h hf
    split_ifs with ht
    · rw [(schedule_misc _ _).1]
      split
      · exact Or.inl rfl
      · next t' hpre =>
          obtain ⟨_, _, _, _, _, _, e7, e8, e9, e10⟩ :=
            switch_to_move_pre_fields _ t' hpre
          have hwt : t'.motion_state = MotionState.wander := e7.trans rfl
          have hft : effective_follow t' = false := by
            unfold effective_follow at hf ⊢
            rw [e8, e9, e10]
            exact hf
          exact tick_wander_no_follow sq fuel os.tail t' hwt hft
    · exact absurd h (by
        have hc : ¬ (s.rest_timer - MOVE_INTERVAL ≤ 0) := ht
        simp only [MOVE_INTERVAL] at hc ⊢
        omega)

unseal Rat.add Rat.mul Rat.sub Rat.inv in
theorem c7_rest_countdown_witness :
    (tick sqrtQ 1 [base_oracle] c7w_state).rest_timer = 70 ∧
    (tick sqrtQ 1 [base_oracle] c7w_state).motion_state = MotionState.rest ∧
    ((tick sqrtQ 1 [base_oracle] c7w2_state).motion_state = MotionState.wander ∨
     (tick sqrtQ 1 [base_oracle] c7w2_state).motion_state = MotionState.rest) := by
  have h1 := (c7_rest_countdown sqrtQ 0 [base_oracle] c7w_state rfl rfl rfl
    (by decide) rfl).1 (by decide)
  have h2 := (c7_rest_countdown sqrtQ 0 [base_oracle] c7w2_state rfl rfl rfl
    (by decide) rfl).2 (by decide) (by decide)
  exact ⟨by rw [h1.1]; decide, h1.2.1, h2⟩

end Ameath
